import Mathlib

/-!
Shallow embedding of `src/components/technologies/genericTechnologies/conv3.py`
(class `Conv3`) from the AdOpT-NET0 repository sample, together with theorems
settling the frozen claims about it.

Conventions of the embedding:
* Rationals `ℚ` stand for Python floats (exact real arithmetic).
* Pyomo decision variables (`size`, `input`, `output`, `var_x`, `var_y`,
  `var_z`, `var_input_rr_full`) become fields of an `Assign` record; a
  constraint group becomes a `Prop` on an assignment stating that the
  assignment satisfies every constraint the Python code emits.
* Pyomo time sets are 1-based: `set_t_performance = [1..T]`,
  `set_t_full = [1..T_full]`.
* The `-1` sentinels of the JSON configuration are kept as `-1` values
  (`standby_power`, `ramping_time`, `ref_size`), except
  `standby_power_carrier`, where `none` models the `-1` sentinel.
* A `gdp.Disjunct`/`gdp.Disjunction` pair becomes, for each timestep, the
  disjunction of the satisfaction propositions of its disjuncts.
-/

namespace Conv3

/-- Technology configuration: the fields of `component_options`,
`processed_coeff.time_independent`, `processed_coeff.dynamics`,
`input_parameters` and the model data that `Conv3` reads.  The carrier
type is a parameter `α`.  Scalar fit coefficients `alpha1`/`alpha2` are the
type-1/2 fits; `bp_x`, `alpha1_seg`, `alpha2_seg` are the piecewise fits of
types 3/4. -/
structure TechConfig (α : Type) where
  input_carriers : List α
  output_carriers : List α
  main_input_carrier : α
  phi : α → ℚ
  standby_power : ℚ
  standby_power_carrier : Option α
  rated_power : ℚ
  min_part_load : ℚ
  alpha1 : α → ℚ
  alpha2 : α → ℚ
  bp_x : List ℚ
  alpha1_seg : α → List ℚ
  alpha2_seg : α → List ℚ
  performance_function_type : ℤ
  SU_time : ℤ
  SD_time : ℤ
  ramping_time : ℚ
  ref_size : ℚ
  ramping_const_int : ℤ
  typicaldays_N : ℕ
  sequence : ℕ → ℕ
  T : ℕ
  T_full : ℕ

/-- A valuation of all decision variables the constraints mention. -/
structure Assign (α : Type) where
  size : ℚ
  input : ℕ → α → ℚ
  output : ℕ → α → ℚ
  x : ℕ → ℚ
  y : ℤ → ℚ
  z : ℤ → ℚ
  input_rr_full : ℕ → α → ℚ

/-- The 1-based pyomo time set with `n` steps: `[1, 2, ..., n]`. -/
def timeSteps (n : ℕ) : List ℕ := List.range' 1 n

/-- Mirrors the repeated idiom
`if standby_power_carrier == -1 then main_input_carrier else standby_power_carrier`
(conv3.py lines 217-220, 348-351, 466-469). -/
def carStandby {α : Type} (cfg : TechConfig α) : α :=
  cfg.standby_power_carrier.getD cfg.main_input_carrier

/-- Startup trajectory (conv3.py lines 610-613):
`[(min_part_load / (SU_time + 1)) * i for i in range(1, SU_time + 1)]`. -/
def SU_trajectory (m : ℚ) (n : ℕ) : List ℚ :=
  (List.range' 1 n).map (fun i : ℕ => m / ((n : ℚ) + 1) * (i : ℚ))

/-- One step of insertion into a descending-sorted list (the comparison done
by Python's `sorted(..., reverse=True)`). -/
def insertDesc (v : ℚ) : List ℚ → List ℚ
  | [] => [v]
  | w :: ws => if w ≤ v then v :: w :: ws else w :: insertDesc v ws

/-- Sorting a list of rationals in descending order, as
`sorted(ws, reverse=True)` does. -/
def sortDesc : List ℚ → List ℚ
  | [] => []
  | w :: ws => insertDesc w (sortDesc ws)

/-- Shutdown trajectory (conv3.py lines 615-619): the same fractions built
from `SD_time`, then sorted in descending order. -/
def SD_trajectory (m : ℚ) (n : ℕ) : List ℚ :=
  sortDesc ((List.range' 1 n).map (fun i : ℕ => m / ((n : ℚ) + 1) * (i : ℚ)))

/-- The error raised by `Conv3.__init__` for an unsupported
`performance_function_type` (conv3.py lines 114-117). -/
inductive ConfigError where
  | unsupportedPerformanceFunctionType
  deriving DecidableEq

/-- The fitting class selected by the constructor (conv3.py lines 104-113). -/
inductive FittingClass where
  | type1
  | type2
  | type34
  deriving DecidableEq

/-- Mirrors the fitting-class dispatch of `Conv3.__init__`
(conv3.py lines 104-117): types 1 and 2 get their own fitting class, types 3
and 4 share one, and anything else raises before any fitting happens. -/
def initFittingClass (pft : ℤ) : Except ConfigError FittingClass :=
  if pft = 1 then Except.ok FittingClass.type1
  else if pft = 2 then Except.ok FittingClass.type2
  else if pft = 3 ∨ pft = 4 then Except.ok FittingClass.type34
  else Except.error ConfigError.unsupportedPerformanceFunctionType

/-- The sizing basis option `size_based_on`. -/
inductive SizeBasis where
  | input
  | output
  deriving DecidableEq

/-- The error raised by `Conv3.fit_technology_performance` when
`size_based_on == "output"` (conv3.py lines 128-129). -/
inductive FitError where
  | outputSizingUnsupported
  deriving DecidableEq

/-- Mirrors `Conv3.fit_technology_performance` (conv3.py lines 119-141):
fail first when output-based sizing is requested, otherwise store the
fitting-class result and the input-ratio dictionary `phi`.  The coefficient
structure produced by the (external) fitting class is the parameter
`fitResult`; the function only decides whether it is produced at all. -/
def fit_technology_performance {α β : Type} (size_based_on : SizeBasis)
    (fitResult : β) (input_ratios : α → ℚ) : Except FitError (β × (α → ℚ)) :=
  if size_based_on = SizeBasis.output then Except.error FitError.outputSizingUnsupported
  else Except.ok (fitResult, input_ratios)

section ConstraintSets

variable {α : Type} [DecidableEq α]

/-- Constraints of `_performance_function_type_1` (conv3.py lines 284-325):
the linear input-output relation for every timestep and output carrier, and,
only when `min_part_load > 0`, the minimum-part-load bound. -/
def perfType1 (cfg : TechConfig α) (a : Assign α) : Prop :=
  (∀ t ∈ timeSteps cfg.T, ∀ car ∈ cfg.output_carriers,
    a.output t car = cfg.alpha1 car * a.input t cfg.main_input_carrier)
  ∧ (0 < cfg.min_part_load →
      ∀ t ∈ timeSteps cfg.T,
        cfg.min_part_load * a.size * cfg.rated_power ≤ a.input t cfg.main_input_carrier)

/-- The `ind == 0` (technology off) disjunct of `_performance_function_type_2`
(conv3.py lines 368-401): `var_x[t] == 0`; all inputs zero when no standby
power is configured, otherwise the rule `init_standby_power` which, at the
main carrier, pins `input[t, car_standby_power]` to
`standby_power * size * rated_power` and zeroes every other carrier; all
outputs zero. -/
def dis2_off (cfg : TechConfig α) (a : Assign α) (t : ℕ) : Prop :=
  a.x t = 0
  ∧ (if cfg.standby_power = -1 then
      ∀ car ∈ cfg.input_carriers, a.input t car = 0
    else
      ∀ car ∈ cfg.input_carriers,
        if car = cfg.main_input_carrier then
          a.input t (carStandby cfg) = cfg.standby_power * a.size * cfg.rated_power
        else a.input t car = 0)
  ∧ (∀ car ∈ cfg.output_carriers, a.output t car = 0)

/-- The `ind == 1` (technology on) disjunct of `_performance_function_type_2`
(conv3.py lines 403-427): `var_x[t] == 1`, the affine input-output relation,
and the minimum-part-load bound. -/
def dis2_on (cfg : TechConfig α) (a : Assign α) (t : ℕ) : Prop :=
  a.x t = 1
  ∧ (∀ car ∈ cfg.output_carriers,
      a.output t car =
        cfg.alpha1 car * a.input t cfg.main_input_carrier
          + cfg.alpha2 car * a.size * cfg.rated_power)
  ∧ cfg.min_part_load * a.size * cfg.rated_power ≤ a.input t cfg.main_input_carrier

/-- The per-timestep disjunction of `_performance_function_type_2`
(conv3.py lines 429-439). -/
def perfType2 (cfg : TechConfig α) (a : Assign α) : Prop :=
  ∀ t ∈ timeSteps cfg.T, dis2_off cfg a t ∨ dis2_on cfg a t

/-- The `ind == 0` (technology off) disjunct of `_performance_function_type_3`
(conv3.py lines 479-513); its constraint content is identical to the type-2
off disjunct. -/
def dis3_off (cfg : TechConfig α) (a : Assign α) (t : ℕ) : Prop :=
  a.x t = 0
  ∧ (if cfg.standby_power = -1 then
      ∀ car ∈ cfg.input_carriers, a.input t car = 0
    else
      ∀ car ∈ cfg.input_carriers,
        if car = cfg.main_input_carrier then
          a.input t (carStandby cfg) = cfg.standby_power * a.size * cfg.rated_power
        else a.input t car = 0)
  ∧ (∀ car ∈ cfg.output_carriers, a.output t car = 0)

/-- The `ind ≥ 1` (piecewise segment) disjunct of
`_performance_function_type_3` (conv3.py lines 515-554): `var_x[t] == 1`,
the breakpoint window `bp_x[ind-1] * S ≤ input ≤ bp_x[ind] * S`, the affine
segment relation with coefficients `alpha1[.][ind-1]`, `alpha2[.][ind-1]`,
and the minimum-part-load bound. -/
def dis3_on (cfg : TechConfig α) (a : Assign α) (t : ℕ) (ind : ℕ) : Prop :=
  a.x t = 1
  ∧ cfg.bp_x.getD (ind - 1) 0 * a.size * cfg.rated_power
      ≤ a.input t cfg.main_input_carrier
  ∧ a.input t cfg.main_input_carrier
      ≤ cfg.bp_x.getD ind 0 * a.size * cfg.rated_power
  ∧ (∀ car ∈ cfg.output_carriers,
      a.output t car =
        (cfg.alpha1_seg car).getD (ind - 1) 0 * a.input t cfg.main_input_carrier
          + (cfg.alpha2_seg car).getD (ind - 1) 0 * a.size * cfg.rated_power)
  ∧ cfg.min_part_load * a.size * cfg.rated_power ≤ a.input t cfg.main_input_carrier

/-- The per-timestep disjunction of `_performance_function_type_3`
(conv3.py lines 556-566), with one disjunct per `ind in range(0, len(bp_x))`. -/
def perfType3 (cfg : TechConfig α) (a : Assign α) : Prop :=
  ∀ t ∈ timeSteps cfg.T,
    ∃ ind ∈ List.range cfg.bp_x.length,
      if ind = 0 then dis3_off cfg a t else dis3_on cfg a t ind

/-- The effective `SU_time` after the normalization of conv3.py lines 600-607
(an `if/elif` chain: when both times are nonpositive nothing is rewritten,
otherwise a negative `SU_time` becomes 0). -/
def SU_eff (cfg : TechConfig α) : ℤ :=
  if cfg.SU_time ≤ 0 ∧ cfg.SD_time ≤ 0 then cfg.SU_time
  else if cfg.SU_time < 0 then 0
  else cfg.SU_time

/-- The effective `SD_time` after the normalization of conv3.py lines 600-607
(the `elif SD_time < 0` branch is reached only when `SU_time ≥ 0` and not
both times are nonpositive). -/
def SD_eff (cfg : TechConfig α) : ℤ :=
  if cfg.SU_time ≤ 0 ∧ cfg.SD_time ≤ 0 then cfg.SD_time
  else if cfg.SU_time < 0 then cfg.SD_time
  else if cfg.SD_time < 0 then 0
  else cfg.SD_time

/-- One disjunct of `_performance_function_type_4`
(conv3.py lines 624-793), for timestep `t` of the full time set and indicator
`ind in range(0, SU_time + SD_time + len(bp_x))`:
`ind = 0` is the off branch (all `var_y`/`var_z` pinned to 0 at the offsets of
a trajectory ending/starting at `t`, with circular wraparound, and all inputs
and outputs zero); `1 ≤ ind ≤ SU_time` the startup branch (input pinned to
`size * SU_trajectory[ind-1]`, output via the first segment's coefficients);
`SU_time < ind ≤ SU_time + SD_time` the shutdown branch (symmetric, via
`SD_trajectory`); `ind > SU_time + SD_time` the on branch, identical in
content to a type-3 segment disjunct. -/
def dis4 (cfg : TechConfig α) (a : Assign α) (t : ℕ) (ind : ℕ) : Prop :=
  if ind = 0 then
    a.x t = 0
    ∧ (∀ i ∈ List.range' 1 (SU_eff cfg).toNat,
        if (t : ℤ) < (cfg.T_full : ℤ) - SU_eff cfg
            ∨ (i : ℤ) > SU_eff cfg - ((cfg.T_full : ℤ) - (t : ℤ)) then
          a.y ((t : ℤ) - (i : ℤ) + SU_eff cfg + 1) = 0
        else
          a.y ((t : ℤ) - (i : ℤ) + SU_eff cfg + 1 - (cfg.T_full : ℤ)) = 0)
    ∧ (∀ j ∈ List.range' 1 (SD_eff cfg).toNat,
        if (j : ℤ) ≤ (t : ℤ) then a.z ((t : ℤ) - (j : ℤ) + 1) = 0
        else a.z ((cfg.T_full : ℤ) + ((t : ℤ) - (j : ℤ) + 1)) = 0)
    ∧ (∀ car ∈ cfg.input_carriers, a.input t car = 0)
    ∧ (∀ car ∈ cfg.output_carriers, a.output t car = 0)
  else if 1 ≤ (ind : ℤ) ∧ (ind : ℤ) ≤ SU_eff cfg then
    a.x t = 0
    ∧ (if (t : ℤ) < (cfg.T_full : ℤ) - SU_eff cfg
          ∨ (ind : ℤ) > SU_eff cfg - ((cfg.T_full : ℤ) - (t : ℤ)) then
        a.y ((t : ℤ) - (ind : ℤ) + SU_eff cfg + 1) = 1
      else
        a.y ((t : ℤ) - (ind : ℤ) + SU_eff cfg + 1 - (cfg.T_full : ℤ)) = 1)
    ∧ (if (t : ℤ) < (cfg.T_full : ℤ) - SU_eff cfg
          ∨ (ind : ℤ) > SU_eff cfg - ((cfg.T_full : ℤ) - (t : ℤ)) then
        a.z ((t : ℤ) - (ind : ℤ) + SU_eff cfg + 1) = 0
      else
        a.z ((t : ℤ) - (ind : ℤ) + SU_eff cfg + 1 - (cfg.T_full : ℤ)) = 0)
    ∧ a.input t cfg.main_input_carrier
        = a.size * (SU_trajectory cfg.min_part_load (SU_eff cfg).toNat).getD (ind - 1) 0
    ∧ (∀ car ∈ cfg.output_carriers,
        a.output t car =
          (cfg.alpha1_seg car).getD 0 0 * a.input t cfg.main_input_carrier
            + (cfg.alpha2_seg car).getD 0 0 * a.size * cfg.rated_power)
  else if SU_eff cfg + 1 ≤ (ind : ℤ) ∧ (ind : ℤ) ≤ SU_eff cfg + SD_eff cfg then
    a.x t = 0
    ∧ (if (ind : ℤ) - SU_eff cfg ≤ (t : ℤ) then
        a.z ((t : ℤ) - ((ind : ℤ) - SU_eff cfg) + 1) = 1
      else
        a.z ((cfg.T_full : ℤ) + ((t : ℤ) - ((ind : ℤ) - SU_eff cfg) + 1)) = 1)
    ∧ (if (ind : ℤ) - SU_eff cfg ≤ (t : ℤ) then
        a.y ((t : ℤ) - ((ind : ℤ) - SU_eff cfg) + 1) = 0
      else
        a.y ((cfg.T_full : ℤ) + ((t : ℤ) - ((ind : ℤ) - SU_eff cfg) + 1)) = 0)
    ∧ a.input t cfg.main_input_carrier
        = a.size * (SD_trajectory cfg.min_part_load (SD_eff cfg).toNat).getD
            ((ind : ℤ) - SU_eff cfg - 1).toNat 0
    ∧ (∀ car ∈ cfg.output_carriers,
        a.output t car =
          (cfg.alpha1_seg car).getD 0 0 * a.input t cfg.main_input_carrier
            + (cfg.alpha2_seg car).getD 0 0 * a.size * cfg.rated_power)
  else if SU_eff cfg + SD_eff cfg < (ind : ℤ) then
    a.x t = 1
    ∧ cfg.bp_x.getD ((ind : ℤ) - (SU_eff cfg + SD_eff cfg) - 1).toNat 0
        * a.size * cfg.rated_power ≤ a.input t cfg.main_input_carrier
    ∧ a.input t cfg.main_input_carrier
        ≤ cfg.bp_x.getD ((ind : ℤ) - (SU_eff cfg + SD_eff cfg)).toNat 0
            * a.size * cfg.rated_power
    ∧ (∀ car ∈ cfg.output_carriers,
        a.output t car =
          (cfg.alpha1_seg car).getD ((ind : ℤ) - (SU_eff cfg + SD_eff cfg) - 1).toNat 0
              * a.input t cfg.main_input_carrier
            + (cfg.alpha2_seg car).getD ((ind : ℤ) - (SU_eff cfg + SD_eff cfg) - 1).toNat 0
              * a.size * cfg.rated_power)
    ∧ cfg.min_part_load * a.size * cfg.rated_power ≤ a.input t cfg.main_input_carrier
  else True

/-- The per-timestep disjunction of `_performance_function_type_4`
(conv3.py lines 795-804), over the full chronological time set, with one
disjunct per `ind in range(0, SU_time + SD_time + len(bp_x))`. -/
def perfType4 (cfg : TechConfig α) (a : Assign α) : Prop :=
  ∀ t ∈ timeSteps cfg.T_full,
    ∃ ind ∈ List.range (SU_eff cfg + SD_eff cfg + (cfg.bp_x.length : ℤ)).toNat,
      dis4 cfg a t ind

/-- The performance-function-type dispatch of `construct_tech_model`
(conv3.py lines 187-194); a type outside 1-4 adds no performance constraints
(the constructor has already rejected it). -/
def perfConstraints (cfg : TechConfig α) (a : Assign α) : Prop :=
  if cfg.performance_function_type = 1 then perfType1 cfg a
  else if cfg.performance_function_type = 2 then perfType2 cfg a
  else if cfg.performance_function_type = 3 then perfType3 cfg a
  else if cfg.performance_function_type = 4 then perfType4 cfg a
  else True

/-- The unconditional input-ratio constraint `init_input_input` emitted when
`standby_power == -1` (conv3.py lines 203-215): skipped at the main carrier,
an equality against the main carrier everywhere else. -/
def inputRatioNoStandby (cfg : TechConfig α) (a : Assign α) (t : ℕ) : Prop :=
  ∀ car ∈ cfg.input_carriers, car ≠ cfg.main_input_carrier →
    a.input t car = cfg.phi car * a.input t cfg.main_input_carrier

/-- The `ind == 0` (technology off) disjunct of the input-ratio disjunction
built when standby power is configured (conv3.py lines 225-236): `var_x[t]
== 0` and every carrier other than the standby-power carrier zeroed. -/
def disInputOff (cfg : TechConfig α) (a : Assign α) (t : ℕ) : Prop :=
  a.x t = 0
  ∧ ∀ car ∈ cfg.input_carriers, car ≠ carStandby cfg → a.input t car = 0

/-- The `ind == 1` (technology on) disjunct of the input-ratio disjunction
built when standby power is configured (conv3.py lines 238-252): `var_x[t]
== 1` and, for every carrier other than the standby-power carrier, an
equality against the standby-power carrier's input. -/
def disInputOn (cfg : TechConfig α) (a : Assign α) (t : ℕ) : Prop :=
  a.x t = 1
  ∧ ∀ car ∈ cfg.input_carriers, car ≠ carStandby cfg →
      a.input t car = cfg.phi car * a.input t (carStandby cfg)

/-- The input-ratio constraint group of `construct_tech_model`
(conv3.py lines 198-264): a single unconditional constraint when
`standby_power == -1`, otherwise a two-way disjunction per timestep. -/
def inputRatioConsts (cfg : TechConfig α) (a : Assign α) : Prop :=
  if cfg.standby_power = -1 then
    ∀ t ∈ timeSteps cfg.T, inputRatioNoStandby cfg a t
  else
    ∀ t ∈ timeSteps cfg.T, disInputOff cfg a t ∨ disInputOn cfg a t

/-- The size constraint `init_size_constraint` of `construct_tech_model`
(conv3.py lines 266-275), emitted unconditionally for every timestep. -/
def sizeConsts (cfg : TechConfig α) (a : Assign α) : Prop :=
  ∀ t ∈ timeSteps cfg.T,
    a.input t cfg.main_input_carrier ≤ a.size * cfg.rated_power

/-- The ramping rate of `_define_ramping_rates` (conv3.py lines 819-823):
`ref_size / ramping_time` when a fixed reference size is configured,
otherwise `var_size / ramping_time`. -/
def rampingRate (cfg : TechConfig α) (a : Assign α) : ℚ :=
  if cfg.ref_size ≠ -1 then cfg.ref_size / cfg.ramping_time
  else a.size / cfg.ramping_time

/-- The branch condition of `_define_ramping_rates` (conv3.py lines 826-830):
the integer-coupled (3-way disjunction) formulation is selected exactly when
the performance function type is not 1 and `ramping_const_int == 1`. -/
def rampingIntSelected (cfg : TechConfig α) : Bool :=
  (!(cfg.performance_function_type == 1)) && (cfg.ramping_const_int == 1)

/-- The integer-coupled ramping disjunction (conv3.py lines 832-889): for
each timestep after the first, either the on-indicator is unchanged and the
rate bound applies, or the indicator rises by 1 (startup), or falls by 1
(shutdown); disjuncts for `t = 1` carry no constraints. -/
def rampingIntCoupled (cfg : TechConfig α) (a : Assign α) : Prop :=
  ∀ t ∈ timeSteps cfg.T, 1 < t →
    ((a.x t - a.x (t - 1) = 0
        ∧ -(rampingRate cfg a)
            ≤ a.input t cfg.main_input_carrier - a.input (t - 1) cfg.main_input_carrier
        ∧ a.input t cfg.main_input_carrier - a.input (t - 1) cfg.main_input_carrier
            ≤ rampingRate cfg a)
      ∨ a.x t - a.x (t - 1) = 1
      ∨ a.x t - a.x (t - 1) = -1)

/-- The unconditional ramping constraints (conv3.py lines 940-967), generic
over the series they are applied to: both one-sided rate bounds for every
timestep of the set after the first (`Constraint.Skip` at `t = 1`). -/
def rampingUncondSeries (rate : ℚ) (inp : ℕ → ℚ) (T : ℕ) : Prop :=
  ∀ t ∈ timeSteps T, 1 < t →
    (-rate ≤ inp t - inp (t - 1) ∧ inp t - inp (t - 1) ≤ rate)

/-- Modelled from the spec: `link_full_resolution_to_clustered` (imported
from `utilities`, whose source is not in the repository sample) emits, per
full-resolution timestep and carrier, the equality binding the
full-resolution auxiliary variable to the representative-period variable
selected by the `sequence` mapping. -/
def linkFullResToClustered (cfg : TechConfig α) (a : Assign α) : Prop :=
  ∀ t ∈ timeSteps cfg.T_full, ∀ car ∈ cfg.input_carriers,
    a.input_rr_full t car = a.input (cfg.sequence t) car

/-- Constraints of `_define_ramping_rates` (conv3.py lines 808-969): the
integer-coupled disjunction when selected; otherwise the unconditional rate
bounds, applied to the native input series when no typical-days aggregation
is active (`N == 0`) and to the linked full-resolution auxiliary series
otherwise. -/
def defineRampingRates (cfg : TechConfig α) (a : Assign α) : Prop :=
  if rampingIntSelected cfg then rampingIntCoupled cfg a
  else if cfg.typicaldays_N = 0 then
    rampingUncondSeries (rampingRate cfg a)
      (fun t => a.input t cfg.main_input_carrier) cfg.T
  else
    linkFullResToClustered cfg a
    ∧ rampingUncondSeries (rampingRate cfg a)
        (fun t => a.input_rr_full t cfg.main_input_carrier) cfg.T_full

/-- The full constraint set of `Conv3.construct_tech_model`
(conv3.py lines 166-282): the performance-type dispatch, the input-ratio
group, the unconditional size constraint, and, when ramping is enabled
(`ramping_time != -1`), the ramping constraints. -/
def construct_tech_model (cfg : TechConfig α) (a : Assign α) : Prop :=
  perfConstraints cfg a
  ∧ inputRatioConsts cfg a
  ∧ sizeConsts cfg a
  ∧ (cfg.ramping_time ≠ -1 → defineRampingRates cfg a)

end ConstraintSets

/-- A small carrier type for concrete instances. -/
inductive Car where
  | gas
  | el
  | heat
  deriving DecidableEq

section TrajectoryLemmas

/-- Inserting a value below every element of a list appends it at the end. -/
theorem insertDesc_of_forall_lt {v : ℚ} {l : List ℚ} (h : ∀ w ∈ l, v < w) :
    insertDesc v l = l ++ [v] := by
  induction l with
  | nil => rfl
  | cons w ws ih =>
    have hvw : v < w := h w (List.mem_cons_self w ws)
    rw [insertDesc, if_neg (not_le.mpr hvw),
      ih (fun u hu => h u (List.mem_cons_of_mem w hu))]
    rfl

/-- Descending-sorting a strictly increasing list reverses it. -/
theorem sortDesc_of_pairwise_lt {l : List ℚ} (h : l.Pairwise (· < ·)) :
    sortDesc l = l.reverse := by
  induction l with
  | nil => rfl
  | cons w ws ih =>
    rw [sortDesc, ih h.of_cons, insertDesc_of_forall_lt, List.reverse_cons]
    intro u hu
    exact (List.pairwise_cons.mp h).1 u (List.mem_reverse.mp hu)

/-- The startup trajectory is strictly increasing when the minimum part load
is positive. -/
theorem SU_trajectory_pairwise_lt {m : ℚ} (hm : 0 < m) (n : ℕ) :
    (SU_trajectory m n).Pairwise (· < ·) := by
  unfold SU_trajectory
  rw [List.pairwise_map]
  have hc : 0 < m / ((n : ℚ) + 1) := div_pos hm (by positivity)
  exact (List.pairwise_lt_range' 1 n).imp
    (fun hab => mul_lt_mul_of_pos_left (Nat.cast_lt.mpr hab) hc)

/-- Every startup-trajectory value is at most the minimum part load. -/
theorem SU_trajectory_le {m : ℚ} (hm : 0 ≤ m) (n : ℕ) :
    ∀ v ∈ SU_trajectory m n, v ≤ m := by
  intro v hv
  unfold SU_trajectory at hv
  obtain ⟨i, hi, rfl⟩ := List.mem_map.mp hv
  obtain ⟨-, h2⟩ := List.mem_range'_1.mp hi
  have hin : (i : ℚ) ≤ (n : ℚ) + 1 := by
    have : i ≤ n + 1 := by omega
    exact_mod_cast this
  calc m / ((n : ℚ) + 1) * (i : ℚ)
      ≤ m / ((n : ℚ) + 1) * ((n : ℚ) + 1) := by
        exact mul_le_mul_of_nonneg_left hin (div_nonneg hm (by positivity))
    _ = m := div_mul_cancel₀ m (by positivity)

end TrajectoryLemmas

/-- C3 counterexample: with `min_part_load = 0` and `SU_time = 2` (a
configuration the code accepts for type 4), the startup trajectory is
`[0, 0]`, which is not strictly increasing, refuting the claimed
unconditional strict monotonicity. -/
theorem C3_trajectory_counterexample :
    SU_trajectory 0 2 = [0, 0]
    ∧ ¬ (SU_trajectory 0 2).Pairwise (· < ·) := by
  have h2 : List.range' 1 2 = [1, 2] := rfl
  constructor
  · simp [SU_trajectory, h2]
  · simp [SU_trajectory, h2, List.pairwise_cons]

/-- C3 (amended): for `SU_time > 0` and `min_part_load > 0`, the startup
trajectory is `[(min_part_load/(SU_time+1)) * i for i = 1..SU_time]`, its
values are strictly increasing and bounded above by `min_part_load`, and
the shutdown trajectory built from an equal `SD_time` is the same list in
reverse, hence strictly decreasing.  (The strict monotonicity fails when
`min_part_load = 0`, which forces the added hypothesis `0 < m`.) -/
theorem C3_trajectory_properties (m : ℚ) (n : ℕ) (hn : 0 < n) (hm : 0 < m) :
    SU_trajectory m n = (List.range' 1 n).map (fun i : ℕ => m / ((n : ℚ) + 1) * (i : ℚ))
    ∧ (SU_trajectory m n).Pairwise (· < ·)
    ∧ (∀ v ∈ SU_trajectory m n, v ≤ m)
    ∧ SD_trajectory m n = (SU_trajectory m n).reverse
    ∧ (SD_trajectory m n).Pairwise (· > ·) := by
  have hpw := SU_trajectory_pairwise_lt hm n
  have hrev : SD_trajectory m n = (SU_trajectory m n).reverse :=
    sortDesc_of_pairwise_lt hpw
  refine ⟨rfl, hpw, SU_trajectory_le hm.le n, hrev, ?_⟩
  rw [hrev, List.pairwise_reverse]
  exact hpw

/-- C3 witness: the scenario of the claim, `SU_time = 2`,
`min_part_load = 0.4`: the startup trajectory is exactly `[0.4/3, 0.8/3]`
and all amended properties hold there. -/
theorem C3_trajectory_witness :
    SU_trajectory (2/5) 2 = [2/15, 4/15]
    ∧ ((SU_trajectory (2/5) 2).Pairwise (· < ·)
      ∧ (∀ v ∈ SU_trajectory (2/5) 2, v ≤ 2/5)
      ∧ SD_trajectory (2/5) 2 = (SU_trajectory (2/5) 2).reverse
      ∧ (SD_trajectory (2/5) 2).Pairwise (· > ·)) := by
  have h := C3_trajectory_properties (2/5) 2 (by norm_num) (by norm_num)
  refine ⟨?_, h.2⟩
  have h2 : List.range' 1 2 = [1, 2] := rfl
  rw [h.1, h2]
  norm_num

/-- C6: the constructor's fitting-class dispatch errors exactly on a
`performance_function_type` outside {1, 2, 3, 4}, and succeeds (types 1, 2
get their own fitting class, 3 and 4 the shared one) exactly inside. -/
theorem C6_constructor_type_check (pft : ℤ) :
    (initFittingClass pft = Except.error ConfigError.unsupportedPerformanceFunctionType
      ↔ ¬(pft = 1 ∨ pft = 2 ∨ pft = 3 ∨ pft = 4))
    ∧ ((∃ fc, initFittingClass pft = Except.ok fc)
      ↔ (pft = 1 ∨ pft = 2 ∨ pft = 3 ∨ pft = 4)) := by
  unfold initFittingClass
  split_ifs with h1 h2 h34
  · simp [h1]
  · simp [h2]
  · constructor <;> simp <;> tauto
  · constructor <;> simp <;> tauto

/-- C7: `fit_technology_performance` fails with the output-sizing error
exactly when `size_based_on == "output"`, and otherwise succeeds, producing
the fitted coefficients and the ratio dictionary. -/
theorem C7_output_sizing_rejected {α β : Type} (b : SizeBasis) (fr : β)
    (input_ratios : α → ℚ) :
    (fit_technology_performance b fr input_ratios
        = Except.error FitError.outputSizingUnsupported
      ↔ b = SizeBasis.output)
    ∧ (fit_technology_performance b fr input_ratios = Except.ok (fr, input_ratios)
      ↔ b ≠ SizeBasis.output) := by
  unfold fit_technology_performance
  split_ifs with h
  · simp [h]
  · simp [h]

section GeneralTheorems

variable {α : Type} [DecidableEq α]

/-- C1 (amended): the ratio group forces, for every non-main input carrier,
the `phi`-ratio against the main carrier — unconditionally when no standby
power is configured, and per branch (on: ratio, off: zero) otherwise —
provided the standby-power carrier is the main input carrier (in particular
when `standby_power_carrier` is left at its `-1` default).  When a distinct
standby carrier is configured, the on-branch ratio is taken against the
standby carrier instead of the main carrier, which refutes the original
claim. -/
theorem C1_ratio_invariant (cfg : TechConfig α) (a : Assign α)
    (hsb : carStandby cfg = cfg.main_input_carrier)
    (hsat : inputRatioConsts cfg a) :
    ∀ t ∈ timeSteps cfg.T, ∀ car ∈ cfg.input_carriers,
      car ≠ cfg.main_input_carrier →
      (cfg.standby_power = -1 →
        a.input t car = cfg.phi car * a.input t cfg.main_input_carrier)
      ∧ (cfg.standby_power ≠ -1 →
          (a.x t = 1 → a.input t car = cfg.phi car * a.input t cfg.main_input_carrier)
          ∧ (a.x t = 0 → a.input t car = 0)) := by
  intro t ht car hcar hne
  unfold inputRatioConsts at hsat
  by_cases hsp : cfg.standby_power = -1
  · rw [if_pos hsp] at hsat
    exact ⟨fun _ => hsat t ht car hcar hne, fun h => absurd hsp h⟩
  · rw [if_neg hsp] at hsat
    refine ⟨fun h => absurd h hsp, fun _ => ?_⟩
    rcases hsat t ht with hoff | hon
    · refine ⟨fun hx1 => ?_, fun _ => hoff.2 car hcar (by rw [hsb]; exact hne)⟩
      rw [hoff.1] at hx1
      norm_num at hx1
    · refine ⟨fun _ => ?_, fun hx0 => ?_⟩
      · have h := hon.2 car hcar (by rw [hsb]; exact hne)
        rwa [hsb] at h
      · rw [hon.1] at hx0
        norm_num at hx0

/-- C2 (amended): with no typical-days aggregation and the integer-coupled
formulation not selected, the ramping constraints bound every step-to-step
change of the main input by the code's ramping rate
(`ref_size / ramping_time` when a reference size is configured, otherwise
`size / ramping_time` — `rated_power` is not a factor), and no emitted
constraint relates the first timestep to any earlier one (changing the
series at index 0 preserves satisfaction). -/
theorem C2_ramping_bound (cfg : TechConfig α) (a : Assign α)
    (hN : cfg.typicaldays_N = 0)
    (hint : rampingIntSelected cfg = false)
    (hsat : defineRampingRates cfg a) :
    (∀ t ∈ timeSteps cfg.T, 1 < t →
      |a.input t cfg.main_input_carrier - a.input (t - 1) cfg.main_input_carrier|
        ≤ rampingRate cfg a)
    ∧ (∀ q : ℚ,
        defineRampingRates cfg
          { a with input := fun s car => if s = 0 then q else a.input s car }) := by
  unfold defineRampingRates at hsat ⊢
  rw [hint] at hsat ⊢
  rw [if_neg (by norm_num), if_pos hN] at hsat
  constructor
  · intro t ht hlt
    rw [abs_le]
    exact hsat t ht hlt
  · intro q
    rw [if_neg (by norm_num), if_pos hN]
    unfold rampingUncondSeries
    intro t ht hlt
    dsimp only
    rw [if_neg (by omega : ¬ t = 0), if_neg (by omega : ¬ t - 1 = 0)]
    exact hsat t ht hlt

/-- The content shared by the type-2 and type-3 off disjuncts: outputs are
zeroed; with no standby power all inputs are zeroed; with standby power and
the standby carrier equal to the main carrier, the main input is pinned to
`standby_power * size * rated_power` and every other input is zeroed. -/
theorem dis2_off_forces (cfg : TechConfig α) (a : Assign α) (t : ℕ)
    (hmem : cfg.main_input_carrier ∈ cfg.input_carriers)
    (hsb : carStandby cfg = cfg.main_input_carrier)
    (h : dis2_off cfg a t) :
    (∀ car ∈ cfg.output_carriers, a.output t car = 0)
    ∧ (cfg.standby_power = -1 → ∀ car ∈ cfg.input_carriers, a.input t car = 0)
    ∧ (cfg.standby_power ≠ -1 →
        a.input t cfg.main_input_carrier = cfg.standby_power * a.size * cfg.rated_power
        ∧ ∀ car ∈ cfg.input_carriers, car ≠ cfg.main_input_carrier →
            a.input t car = 0) := by
  obtain ⟨-, hin, hout⟩ := h
  refine ⟨hout, ?_, ?_⟩
  · intro hsp
    rw [if_pos hsp] at hin
    exact hin
  · intro hsp
    rw [if_neg hsp] at hin
    constructor
    · have h := hin cfg.main_input_carrier hmem
      rw [if_pos rfl] at h
      rwa [hsb] at h
    · intro car hcar hne
      have h := hin car hcar
      rwa [if_neg hne] at h

/-- C4 (amended): in the off disjunct of performance function types 2 and 3,
all outputs are forced to 0; when standby power is configured and the
standby-power carrier is the main carrier (the `-1` default), the main input
is held at `standby_power * size * rated_power` and every other input is
forced to 0; with no standby power all inputs are forced to 0.  (When a
distinct standby carrier is configured, the code pins the standby carrier's
input — not the main carrier's — and simultaneously zeroes it, refuting the
original claim.) -/
theorem C4_off_branch (cfg : TechConfig α) (a : Assign α) (t : ℕ)
    (hmem : cfg.main_input_carrier ∈ cfg.input_carriers)
    (hsb : carStandby cfg = cfg.main_input_carrier) :
    (dis2_off cfg a t →
      (∀ car ∈ cfg.output_carriers, a.output t car = 0)
      ∧ (cfg.standby_power = -1 → ∀ car ∈ cfg.input_carriers, a.input t car = 0)
      ∧ (cfg.standby_power ≠ -1 →
          a.input t cfg.main_input_carrier = cfg.standby_power * a.size * cfg.rated_power
          ∧ ∀ car ∈ cfg.input_carriers, car ≠ cfg.main_input_carrier →
              a.input t car = 0))
    ∧ (dis3_off cfg a t →
      (∀ car ∈ cfg.output_carriers, a.output t car = 0)
      ∧ (cfg.standby_power = -1 → ∀ car ∈ cfg.input_carriers, a.input t car = 0)
      ∧ (cfg.standby_power ≠ -1 →
          a.input t cfg.main_input_carrier = cfg.standby_power * a.size * cfg.rated_power
          ∧ ∀ car ∈ cfg.input_carriers, car ≠ cfg.main_input_carrier →
              a.input t car = 0)) :=
  ⟨fun h => dis2_off_forces cfg a t hmem hsb h,
   fun h => dis2_off_forces cfg a t hmem hsb h⟩

/-- C5: the size constraint `input[t, main] ≤ size * rated_power` is part of
the constraint set of `construct_tech_model` unconditionally — outside every
disjunction, for every performance function type — so it holds at every
timestep in every feasible assignment. -/
theorem C5_size_constraint (cfg : TechConfig α) (a : Assign α)
    (hsat : construct_tech_model cfg a) :
    ∀ t ∈ timeSteps cfg.T,
      a.input t cfg.main_input_carrier ≤ a.size * cfg.rated_power :=
  hsat.2.2.1

/-- C8: for performance function types 2, 3 and 4, every disjunct of the
per-timestep disjunction pins `var_x[t]` to exactly 0 or exactly 1, so in
every feasible assignment the on-indicator is binary although declared
continuous on `[0, 1]`. -/
theorem C8_on_indicator_binary (cfg : TechConfig α) (a : Assign α) (t : ℕ) :
    (perfType2 cfg a → t ∈ timeSteps cfg.T → a.x t = 0 ∨ a.x t = 1)
    ∧ (perfType3 cfg a → t ∈ timeSteps cfg.T → a.x t = 0 ∨ a.x t = 1)
    ∧ (perfType4 cfg a → t ∈ timeSteps cfg.T_full → a.x t = 0 ∨ a.x t = 1) := by
  refine ⟨?_, ?_, ?_⟩
  · intro h ht
    rcases h t ht with hoff | hon
    · exact Or.inl hoff.1
    · exact Or.inr hon.1
  · intro h ht
    obtain ⟨ind, -, hdis⟩ := h t ht
    by_cases hi : ind = 0
    · rw [if_pos hi] at hdis
      exact Or.inl hdis.1
    · rw [if_neg hi] at hdis
      exact Or.inr hdis.1
  · intro h ht
    obtain ⟨ind, -, hdis⟩ := h t ht
    unfold dis4 at hdis
    by_cases h0 : ind = 0
    · rw [if_pos h0] at hdis
      exact Or.inl hdis.1
    · rw [if_neg h0] at hdis
      by_cases h1 : 1 ≤ (ind : ℤ) ∧ (ind : ℤ) ≤ SU_eff cfg
      · rw [if_pos h1] at hdis
        exact Or.inl hdis.1
      · rw [if_neg h1] at hdis
        by_cases h2 : SU_eff cfg + 1 ≤ (ind : ℤ) ∧ (ind : ℤ) ≤ SU_eff cfg + SD_eff cfg
        · rw [if_pos h2] at hdis
          exact Or.inl hdis.1
        · rw [if_neg h2] at hdis
          rw [if_pos (by omega : SU_eff cfg + SD_eff cfg < (ind : ℤ))] at hdis
          exact Or.inr hdis.1

/-- C9: with `performance_function_type == 1` the integer-coupled ramping
disjunction is never selected — even when `ramping_const_int == 1` — and
`_define_ramping_rates` reduces to the unconditional rate bounds. -/
theorem C9_type1_no_integer_ramping (cfg : TechConfig α) (a : Assign α)
    (h1 : cfg.performance_function_type = 1) :
    rampingIntSelected cfg = false
    ∧ (defineRampingRates cfg a ↔
        (if cfg.typicaldays_N = 0 then
          rampingUncondSeries (rampingRate cfg a)
            (fun t => a.input t cfg.main_input_carrier) cfg.T
        else
          linkFullResToClustered cfg a
          ∧ rampingUncondSeries (rampingRate cfg a)
              (fun t => a.input_rr_full t cfg.main_input_carrier) cfg.T_full)) := by
  have hsel : rampingIntSelected cfg = false := by
    unfold rampingIntSelected
    rw [h1]
    simp
  refine ⟨hsel, ?_⟩
  unfold defineRampingRates
  rw [hsel]
  simp

/-- C10: the type-4 off disjunct forces every input carrier — including any
configured standby-power carrier — and every output to exactly 0, and the
type-4 disjunction is entirely independent of the standby-power options. -/
theorem C10_type4_off_branch (cfg : TechConfig α) (a : Assign α) (t : ℕ)
    (hoff : dis4 cfg a t 0) :
    ((∀ car ∈ cfg.input_carriers, a.input t car = 0)
      ∧ (∀ car ∈ cfg.output_carriers, a.output t car = 0))
    ∧ ∀ (s s' : ℚ) (c c' : Option α),
        (perfType4 { cfg with standby_power := s, standby_power_carrier := c } a
          ↔ perfType4 { cfg with standby_power := s', standby_power_carrier := c' } a) := by
  constructor
  · unfold dis4 at hoff
    rw [if_pos rfl] at hoff
    exact ⟨hoff.2.2.2.1, hoff.2.2.2.2⟩
  · intro s s' c c'
    exact Iff.rfl

end GeneralTheorems

section ConcreteInstances

/-- A small baseline configuration: one input carrier (gas), one output
carrier (heat), type 1, all options disabled, a single timestep. -/
def baseCfg : TechConfig Car where
  input_carriers := [Car.gas]
  output_carriers := [Car.heat]
  main_input_carrier := Car.gas
  phi := fun _ => 0
  standby_power := -1
  standby_power_carrier := none
  rated_power := 1
  min_part_load := 0
  alpha1 := fun _ => 0
  alpha2 := fun _ => 0
  bp_x := []
  alpha1_seg := fun _ => []
  alpha2_seg := fun _ => []
  performance_function_type := 1
  SU_time := 0
  SD_time := 0
  ramping_time := -1
  ref_size := -1
  ramping_const_int := 0
  typicaldays_N := 0
  sequence := fun t => t
  T := 1
  T_full := 1

/-- The all-zero assignment. -/
def zeroAssign : Assign Car where
  size := 0
  input := fun _ _ => 0
  output := fun _ _ => 0
  x := fun _ => 0
  y := fun _ => 0
  z := fun _ => 0
  input_rr_full := fun _ _ => 0

/-- Evaluation of the one-step time set. -/
theorem timeSteps_one : timeSteps 1 = [1] := rfl

/-- Evaluation of the two-step time set. -/
theorem timeSteps_two : timeSteps 2 = [1, 2] := rfl

/-- C1 counterexample configuration: standby power configured with a standby
carrier (el) distinct from the main carrier (gas), type 2. -/
def cfgC1c : TechConfig Car :=
  { baseCfg with
    input_carriers := [Car.gas, Car.el]
    phi := fun c => match c with | Car.gas => 2 | Car.el => 3 | Car.heat => 0
    standby_power := 1
    standby_power_carrier := some Car.el
    alpha1 := fun _ => 1
    performance_function_type := 2 }

/-- C1 counterexample assignment: technology on at `t = 1`, inputs in the
ratio dictated by the standby carrier, not by the main carrier. -/
def aC1c : Assign Car :=
  { zeroAssign with
    size := 2
    x := fun _ => 1
    input := fun _ c => match c with | Car.gas => 2 | Car.el => 1 | Car.heat => 0
    output := fun _ c => match c with | Car.heat => 2 | _ => 0 }

/-- C1 counterexample: a feasible assignment of the full constraint set in
which the technology is on at `t = 1` but the non-main carrier `el` does not
satisfy `input[t, el] = phi[el] * input[t, main]` (the code relates it to the
standby carrier instead). -/
theorem C1_ratio_counterexample :
    construct_tech_model cfgC1c aC1c
    ∧ cfgC1c.standby_power ≠ -1
    ∧ aC1c.x 1 = 1
    ∧ Car.el ∈ cfgC1c.input_carriers
    ∧ Car.el ≠ cfgC1c.main_input_carrier
    ∧ aC1c.input 1 Car.el ≠ cfgC1c.phi Car.el * aC1c.input 1 cfgC1c.main_input_carrier := by
  refine ⟨⟨?_, ?_, ?_, ?_⟩, ?_, ?_, ?_, ?_, ?_⟩
  · show perfConstraints cfgC1c aC1c
    norm_num [perfConstraints, perfType2, dis2_off, dis2_on, timeSteps_one,
      cfgC1c, aC1c, baseCfg, zeroAssign]
  · show inputRatioConsts cfgC1c aC1c
    norm_num [inputRatioConsts, disInputOff, disInputOn, carStandby, timeSteps_one,
      cfgC1c, aC1c, baseCfg, zeroAssign]
  · show sizeConsts cfgC1c aC1c
    norm_num [sizeConsts, timeSteps_one, cfgC1c, aC1c, baseCfg, zeroAssign]
  · exact fun h => absurd rfl h
  · norm_num [cfgC1c, baseCfg]
  · rfl
  · decide
  · decide
  · norm_num [cfgC1c, aC1c, baseCfg, zeroAssign]

/-- C1 witness configuration: standby power configured, standby carrier left
at its default (so it is the main carrier). -/
def cfgC1w : TechConfig Car :=
  { baseCfg with
    input_carriers := [Car.gas, Car.el]
    phi := fun c => match c with | Car.el => 1/2 | _ => 0
    standby_power := 1 }

/-- C1 witness assignment: on at `t = 1`, with `el` at half the gas input. -/
def aC1w : Assign Car :=
  { zeroAssign with
    size := 4
    x := fun _ => 1
    input := fun _ c => match c with | Car.gas => 4 | Car.el => 2 | Car.heat => 0 }

/-- C1 witness: the amended ratio invariant applied at the concrete
configuration, timestep 1, carrier `el`. -/
theorem C1_ratio_witness :
    (cfgC1w.standby_power = -1 →
      aC1w.input 1 Car.el = cfgC1w.phi Car.el * aC1w.input 1 cfgC1w.main_input_carrier)
    ∧ (cfgC1w.standby_power ≠ -1 →
        (aC1w.x 1 = 1 →
          aC1w.input 1 Car.el = cfgC1w.phi Car.el * aC1w.input 1 cfgC1w.main_input_carrier)
        ∧ (aC1w.x 1 = 0 → aC1w.input 1 Car.el = 0)) :=
  C1_ratio_invariant cfgC1w aC1w rfl
    (by
      norm_num [inputRatioConsts, disInputOff, disInputOn, carStandby, timeSteps_one,
        cfgC1w, aC1w, baseCfg, zeroAssign])
    1 (by decide) Car.el (by decide) (by decide)

/-- C2 configuration: type 1, ramping enabled with `ramping_time = 2`, no
reference size, rated power 1/2, two timesteps. -/
def cfgC2 : TechConfig Car :=
  { baseCfg with
    rated_power := 1/2
    ramping_time := 2
    T := 2
    T_full := 2 }

/-- C2 assignment: size 2, main input stepping from 0 to 1. -/
def aC2 : Assign Car :=
  { zeroAssign with
    size := 2
    input := fun t _ => if t = 2 then 1 else 0 }

/-- C2 counterexample: a feasible assignment of the full constraint set
whose step change at `t = 2` exceeds `size * rated_power / ramping_time`
(the code's bound is `size / ramping_time`, without the `rated_power`
factor). -/
theorem C2_ramping_counterexample :
    construct_tech_model cfgC2 aC2
    ∧ cfgC2.ramping_time ≠ -1
    ∧ rampingIntSelected cfgC2 = false
    ∧ cfgC2.ref_size = -1
    ∧ (2 : ℕ) ∈ timeSteps cfgC2.T
    ∧ ¬ (|aC2.input 2 cfgC2.main_input_carrier - aC2.input 1 cfgC2.main_input_carrier|
          ≤ aC2.size * cfgC2.rated_power / cfgC2.ramping_time) := by
  refine ⟨⟨?_, ?_, ?_, ?_⟩, ?_, ?_, ?_, ?_, ?_⟩
  · show perfConstraints cfgC2 aC2
    norm_num [perfConstraints, perfType1, timeSteps_two, cfgC2, aC2, baseCfg, zeroAssign]
  · show inputRatioConsts cfgC2 aC2
    norm_num [inputRatioConsts, inputRatioNoStandby, timeSteps_two,
      cfgC2, aC2, baseCfg, zeroAssign]
  · show sizeConsts cfgC2 aC2
    norm_num [sizeConsts, timeSteps_two, cfgC2, aC2, baseCfg, zeroAssign]
  · intro _hrt
    show defineRampingRates cfgC2 aC2
    norm_num [defineRampingRates, rampingIntSelected, rampingUncondSeries, rampingRate,
      timeSteps_two, cfgC2, aC2, baseCfg, zeroAssign]
  · norm_num [cfgC2, baseCfg]
  · norm_num [rampingIntSelected, cfgC2, baseCfg]
  · norm_num [cfgC2, baseCfg]
  · decide
  · norm_num [cfgC2, aC2, baseCfg, zeroAssign]

/-- C2 witness: the amended bound applied at the same configuration,
timestep 2. -/
theorem C2_ramping_witness :
    |aC2.input 2 cfgC2.main_input_carrier - aC2.input 1 cfgC2.main_input_carrier|
      ≤ rampingRate cfgC2 aC2 :=
  (C2_ramping_bound cfgC2 aC2 rfl (by norm_num [rampingIntSelected, cfgC2, baseCfg])
    (by
      norm_num [defineRampingRates, rampingIntSelected, rampingUncondSeries, rampingRate,
        timeSteps_two, cfgC2, aC2, baseCfg, zeroAssign])).1
    2 (by decide) (by norm_num)

/-- C4 counterexample configuration: standby power configured at 0 with a
standby carrier (el) distinct from the main carrier (gas). -/
def cfgC4c : TechConfig Car :=
  { baseCfg with
    input_carriers := [Car.gas, Car.el]
    standby_power := 0
    standby_power_carrier := some Car.el
    performance_function_type := 2 }

/-- C4 counterexample assignment: off at `t = 1` with a nonzero main input,
which the off disjunct fails to constrain when the standby carrier is not
the main carrier. -/
def aC4c : Assign Car :=
  { zeroAssign with
    input := fun _ c => match c with | Car.gas => 7 | _ => 0 }

/-- C4 counterexample: an assignment satisfying the type-2 and type-3 off
disjuncts in which the main-carrier input is not held at
`standby_power * size * rated_power` (it is left unconstrained because the
rule pins the standby carrier instead). -/
theorem C4_off_branch_counterexample :
    dis2_off cfgC4c aC4c 1
    ∧ dis3_off cfgC4c aC4c 1
    ∧ cfgC4c.standby_power ≠ -1
    ∧ aC4c.input 1 cfgC4c.main_input_carrier
        ≠ cfgC4c.standby_power * aC4c.size * cfgC4c.rated_power := by
  refine ⟨?_, ?_, ?_, ?_⟩
  · norm_num [dis2_off, carStandby, cfgC4c, aC4c, baseCfg, zeroAssign]
  · norm_num [dis3_off, carStandby, cfgC4c, aC4c, baseCfg, zeroAssign]
  · norm_num [cfgC4c, baseCfg]
  · norm_num [cfgC4c, aC4c, baseCfg, zeroAssign]

/-- C4 witness configuration: standby power 1 with the standby carrier left
at its default (the main carrier). -/
def cfgC4w : TechConfig Car :=
  { baseCfg with
    input_carriers := [Car.gas, Car.el]
    standby_power := 1
    performance_function_type := 2 }

/-- C4 witness assignment: off at `t = 1`, main input held at the standby
level `1 * 3 * 1`, other input zero. -/
def aC4w : Assign Car :=
  { zeroAssign with
    size := 3
    input := fun _ c => match c with | Car.gas => 3 | _ => 0 }

/-- C4 witness: the amended off-branch property applied at the concrete
configuration. -/
theorem C4_off_branch_witness :
    aC4w.input 1 cfgC4w.main_input_carrier
      = cfgC4w.standby_power * aC4w.size * cfgC4w.rated_power
    ∧ ∀ car ∈ cfgC4w.input_carriers, car ≠ cfgC4w.main_input_carrier →
        aC4w.input 1 car = 0 :=
  ((C4_off_branch cfgC4w aC4w 1 (by decide) rfl).1
    (by norm_num [dis2_off, carStandby, cfgC4w, aC4w, baseCfg, zeroAssign])).2.2
    (by norm_num [cfgC4w, baseCfg])

/-- C5 witness: the baseline model satisfied by the all-zero assignment;
the size constraint holds at timestep 1. -/
theorem C5_size_constraint_witness :
    zeroAssign.input 1 baseCfg.main_input_carrier
      ≤ zeroAssign.size * baseCfg.rated_power :=
  C5_size_constraint baseCfg zeroAssign
    (by
      refine ⟨?_, ?_, ?_, fun h => absurd rfl h⟩
      · show perfConstraints baseCfg zeroAssign
        norm_num [perfConstraints, perfType1, timeSteps_one, baseCfg, zeroAssign]
      · show inputRatioConsts baseCfg zeroAssign
        norm_num [inputRatioConsts, inputRatioNoStandby, timeSteps_one, baseCfg, zeroAssign]
      · show sizeConsts baseCfg zeroAssign
        norm_num [sizeConsts, timeSteps_one, baseCfg, zeroAssign])
    1 (by decide)

/-- C8 configuration: two breakpoints so that types 3 and 4 have an off and
an on disjunct; all dynamics disabled. -/
def cfgC8 : TechConfig Car :=
  { baseCfg with bp_x := [0, 1] }

/-- C8 witness: the on-indicator is binary at timestep 1 under each of the
type-2, type-3 and type-4 disjunctions, all satisfied by the all-zero
assignment (off branch). -/
theorem C8_on_indicator_witness :
    (zeroAssign.x 1 = 0 ∨ zeroAssign.x 1 = 1)
    ∧ (zeroAssign.x 1 = 0 ∨ zeroAssign.x 1 = 1)
    ∧ (zeroAssign.x 1 = 0 ∨ zeroAssign.x 1 = 1) := by
  have h2 : perfType2 cfgC8 zeroAssign := by
    intro t _
    left
    norm_num [dis2_off, cfgC8, baseCfg, zeroAssign]
  have h3 : perfType3 cfgC8 zeroAssign := by
    intro t _
    refine ⟨0, by decide, ?_⟩
    rw [if_pos rfl]
    norm_num [dis3_off, cfgC8, baseCfg, zeroAssign]
  have h4 : perfType4 cfgC8 zeroAssign := by
    intro t _
    refine ⟨0, by decide, ?_⟩
    unfold dis4
    rw [if_pos rfl]
    norm_num [SU_eff, SD_eff, cfgC8, baseCfg, zeroAssign]
  exact ⟨(C8_on_indicator_binary cfgC8 zeroAssign 1).1 h2 (by decide),
    (C8_on_indicator_binary cfgC8 zeroAssign 1).2.1 h3 (by decide),
    (C8_on_indicator_binary cfgC8 zeroAssign 1).2.2 h4 (by decide)⟩

/-- C9 configuration: type 1 with `ramping_const_int = 1` and ramping
enabled. -/
def cfgC9 : TechConfig Car :=
  { baseCfg with
    ramping_time := 2
    ramping_const_int := 1 }

/-- C9 witness: at the type-1 configuration with `ramping_const_int = 1`,
the integer-coupled branch is not selected and the ramping constraints are
the unconditional ones. -/
theorem C9_type1_no_integer_ramping_witness :
    rampingIntSelected cfgC9 = false
    ∧ (defineRampingRates cfgC9 zeroAssign ↔
        (if cfgC9.typicaldays_N = 0 then
          rampingUncondSeries (rampingRate cfgC9 zeroAssign)
            (fun t => zeroAssign.input t cfgC9.main_input_carrier) cfgC9.T
        else
          linkFullResToClustered cfgC9 zeroAssign
          ∧ rampingUncondSeries (rampingRate cfgC9 zeroAssign)
              (fun t => zeroAssign.input_rr_full t cfgC9.main_input_carrier) cfgC9.T_full)) :=
  C9_type1_no_integer_ramping cfgC9 zeroAssign rfl

/-- C10 configuration: type 4 with a one-step startup and shutdown, three
full timesteps, and a nonzero standby power (which the type-4 disjunction
must ignore). -/
def cfgC10 : TechConfig Car :=
  { baseCfg with
    performance_function_type := 4
    SU_time := 1
    SD_time := 1
    T_full := 3
    bp_x := [0, 1]
    min_part_load := 2/5
    standby_power := 5 }

/-- C10 witness: the type-4 off disjunct at `t = 1` zeroes every input and
output even though standby power is configured, and the type-4 disjunction
is invariant under changing the standby options. -/
theorem C10_type4_off_branch_witness :
    ((∀ car ∈ cfgC10.input_carriers, zeroAssign.input 1 car = 0)
      ∧ (∀ car ∈ cfgC10.output_carriers, zeroAssign.output 1 car = 0))
    ∧ (perfType4 { cfgC10 with standby_power := 5, standby_power_carrier := none } zeroAssign
        ↔ perfType4 { cfgC10 with standby_power := (-1 : ℚ), standby_power_carrier := some Car.el } zeroAssign) := by
  have h := C10_type4_off_branch cfgC10 zeroAssign 1
    (by
      unfold dis4
      rw [if_pos rfl]
      norm_num [SU_eff, SD_eff, List.range', cfgC10, baseCfg, zeroAssign])
  exact ⟨h.1, h.2 5 (-1) none (some Car.el)⟩

end ConcreteInstances

end Conv3
